import Mathlib

/-!
Verification development for the cross-account credential broker of the
cloudtrail-bot repository (`src/tools/credential.py`).

The Python module is shallowly embedded below.  External effects are
modelled by a `World` record: the process environment (`os.environ.get`),
the SSM parameter store (`get_parameter`), the relational store (the three
tables joined by the lookup queries plus the in-database `AES_DECRYPT`
result, given abstractly per ciphertext/key-label pair), database
reachability, and the STS `assume_role` endpoint.  Python exceptions are
modelled with `Except PyErr`; observable side effects (parameter-store
reads, log records, STS calls) are collected in an event trace, and the
module-level pool cache (`_db_pool_cache`) is threaded explicitly as
`CredState`.
-/

deriving instance DecidableEq for Except

/-- A raised Python exception, as the embedded code distinguishes them. -/
inductive PyErr where
  /-- `ssm.get_parameter` raised `ParameterNotFound` for this path. -/
  | parameterNotFound (path : String)
  /-- the database connection could not be acquired / the query failed -/
  | dbConnectError
  /-- `bytes.decode('utf-8')` raised `UnicodeDecodeError` -/
  | unicodeDecodeError
  /-- `int(...)` raised `ValueError` -/
  | valueError
  /-- the STS `assume_role` call failed -/
  | stsError (msg : String)
deriving DecidableEq, Repr

/-- A temporary credential triple as returned by STS. -/
structure Creds where
  accessKeyId : String
  secretAccessKey : String
  sessionToken : String
deriving DecidableEq, Repr

/-- How a boto3 STS client is authenticated when it is constructed. -/
inductive Auth where
  /-- `boto3.client('sts')` — ambient/default credentials -/
  | ambient
  /-- `boto3.client('sts', aws_access_key_id=…, aws_secret_access_key=…)` -/
  | keyPair (accessKeyId secretAccessKey : String)
  /-- key pair plus `aws_session_token=…` -/
  | triple (accessKeyId secretAccessKey sessionToken : String)
deriving DecidableEq, Repr

/-- The keyword arguments of one `sts.assume_role` call. -/
structure AssumeRoleParams where
  roleArn : String
  roleSessionName : String
  externalId : Option String
deriving DecidableEq, Repr

/-- One observable side effect of the embedded code. -/
inductive Event where
  /-- a parameter-store read (`ssm.get_parameter`) of this path -/
  | ssmGet (path : String)
  | logInfo (msg : String)
  | logWarning (msg : String)
  | logError (msg : String)
  /-- an `assume_role` call issued by a client authenticated as `auth` -/
  | stsAssumeRole (auth : Auth) (params : AssumeRoleParams)
deriving DecidableEq, Repr

/-- One `assume_role` call extracted from a trace. -/
structure StsCallRec where
  auth : Auth
  params : AssumeRoleParams
deriving DecidableEq, Repr

/-- The STS calls of a trace, in order. -/
def stsCallsOf : List Event → List StsCallRec
  | [] => []
  | .stsAssumeRole a p :: r => ⟨a, p⟩ :: stsCallsOf r
  | _ :: r => stsCallsOf r

/-- A value as delivered by the MySQL driver for one result column. -/
inductive SqlVal where
  | null
  | int (n : Int)
  | str (s : String)
  | bytes (bs : List Nat)
deriving DecidableEq, Repr

/-- Whether the driver delivered this column as a raw byte string. -/
def SqlVal.isBytes : SqlVal → Bool
  | .bytes _ => true
  | _ => false

/-- One row of the `corporation` table (the columns the queries touch). -/
structure CorpRow where
  corp_id : Int
  corp_name : String
  delete_flag : Int
deriving DecidableEq, Repr

/-- One row of the `account` table (the columns the queries touch). -/
structure AccountRow where
  corp_id : Int
  account_id : String
  /-- the stored hex ciphertext of `cross_account_role_name` -/
  cross_account_role_name : String
  assume_role_type : SqlVal
  external_id : SqlVal
  delete_flag : Int
deriving DecidableEq, Repr

/-- The external world the Python module runs against. -/
structure World where
  /-- `os.environ.get` -/
  env : String → Option String
  /-- the parameter store: `some value`, or `none` = `ParameterNotFound` -/
  ssm : String → Option String
  corporation : List CorpRow
  /-- the set of `corp_id`s present in `corporation_add_info` -/
  corporation_add_info : List Int
  account : List AccountRow
  /-- the value the driver delivers for
      `AES_DECRYPT(UNHEX(ciphertext), SHA2(secretTitle, 512))` -/
  decryptRole : (ciphertext : String) → (secretTitle : String) → SqlVal
  /-- whether `pool.get_connection()` / query execution succeeds -/
  dbReachable : Bool
  /-- the STS endpoint: result of `assume_role` for a given client auth -/
  stsAssume : Auth → AssumeRoleParams → Except PyErr Creds

/-- `'/access-key/crossaccount'` -/
def CROSSACCOUNT_ACCESS_KEY : String := "/access-key/crossaccount"
/-- `'/secret-key/crossaccount'` -/
def CROSSACCOUNT_SECRET_KEY : String := "/secret-key/crossaccount"
/-- `'/crossaccountRoleBridge/bridgeAccountId'` -/
def CROSSACCOUNT_BRIDGE_ACCOUNDID : String := "/crossaccountRoleBridge/bridgeAccountId"
/-- `'/crossaccountRoleBridge/bridgeExternalId'` -/
def CROSSACCOUNT_BRIDGE_EXTERNALID : String := "/crossaccountRoleBridge/bridgeExternalId"
/-- `'/crossaccountRoleBridge/bridgeRoleName'` -/
def CROSSACCOUNT_BRIDGE_ROLENAME : String := "/crossaccountRoleBridge/bridgeRoleName"

/-- Python truthiness of an `Optional[str]`: `None` and `""` are falsy. -/
def truthyOptStr : Option String → Bool
  | some s => s != ""
  | none => false

/-- Python truthiness of a driver value (`None`, `""`, `b""`, `0` falsy). -/
def truthySql : SqlVal → Bool
  | .null => false
  | .int n => n != 0
  | .str s => s != ""
  | .bytes bs => !bs.isEmpty

/-- Python `f"{x}"` rendering of an `Optional[str]`. -/
def showOpt : Option String → String
  | some s => s
  | none => "None"

/-- Accumulate decimal digits; any non-digit character fails. -/
def pyIntDigits : List Char → Nat → Option Nat
  | [], n => some n
  | c :: r, n => if c.isDigit then pyIntDigits r (n * 10 + (c.toNat - 48)) else none

/-- Python `int(s)` on a stripped decimal literal: an optional sign followed
by at least one digit; anything else raises `ValueError` (`none`). -/
def pyInt (s : String) : Option Int :=
  match s.data with
  | [] => none
  | '-' :: rest => if rest.isEmpty then none else (pyIntDigits rest 0).map (fun n => -(n : Int))
  | '+' :: rest => if rest.isEmpty then none else (pyIntDigits rest 0).map (fun n => (n : Int))
  | cs => (pyIntDigits cs 0).map (fun n => (n : Int))

/-- `load_parameter`: a parameter-store read; raises when the path is absent. -/
def load_parameter (w : World) (param_name : String) :
    Except PyErr String × List Event :=
  ((match w.ssm param_name with
    | some v => .ok v
    | none => .error (.parameterNotFound param_name)),
   [.ssmGet param_name])

/-- `_load_parameter_safe`: like `load_parameter` but absorbing the failure
into an absent value; the parameter-store read still happens. -/
def load_parameter_safe (w : World) (param_name : String) :
    Option String × List Event :=
  ((load_parameter w param_name).1.toOption, (load_parameter w param_name).2)

/-- `_get_db_secret_title`: env `DB_SECRET_TITLE`, then the
`/cloudtrail-bot/{env_type}/db/secret-title` path (tolerant), then the
`/fitcloud/{env_type}/db/secret_title` path (strict). -/
def get_db_secret_title (w : World) (env_type : String) :
    Except PyErr String × List Event :=
  let t0 := w.env "DB_SECRET_TITLE"
  if truthyOptStr t0 then (.ok (t0.getD ""), [])
  else
    let r1 := load_parameter_safe w ("/cloudtrail-bot/" ++ env_type ++ "/db/secret-title")
    if truthyOptStr r1.1 then (.ok (r1.1.getD ""), r1.2)
    else
      let r2 := load_parameter w ("/fitcloud/" ++ env_type ++ "/db/secret_title")
      (r2.1, r1.2 ++ r2.2)

/-- One `pymysqlpool.ConnectionPool` object.  `poolId` models Python object
identity (each constructor call yields a distinct object). -/
structure Pool where
  poolId : Nat
  name : String
  size : Nat
  maxsize : Nat
  pre_create_num : Nat
  host : Option String
  port : Int
  user : Option String
  password : Option String
  database : Option String
  charset : String
deriving DecidableEq, Repr

/-- The module-level mutable state: `_db_pool_cache` plus the object-identity
counter backing `Pool.poolId`. -/
structure CredState where
  dbPoolCache : List (String × Pool)
  nextPoolId : Nat
deriving DecidableEq, Repr

/-- The initial module state: empty cache. -/
def st0 : CredState := ⟨[], 0⟩

/-- Dictionary lookup in the pool cache. -/
def lookupPool : List (String × Pool) → String → Option Pool
  | [], _ => none
  | (k, p) :: rest, key => if k = key then some p else lookupPool rest key

/-- The settings-resolution part of `get_db_connection_pool`
(source lines 112–139): env vars, then the fixed `/fitcloud/prd/db/ts`
parameter prefix when the host is still unset, then the legacy
`/fitcloud/{env_type}/db` parameters (strict).  Returns
`(host, port, user, password, database)`. -/
def resolve_db_settings (w : World) (env_type : String) :
    Except PyErr (Option String × Int × Option String × Option String × Option String)
      × List Event :=
  let db_host := w.env "DB_HOST"
  let db_user := w.env "DB_USER"
  let db_password := w.env "DB_PASSWORD"
  let db_name := w.env "DB_NAME"
  match pyInt ((w.env "DB_PORT").getD "3306") with
  | none => (.error .valueError, [])
  | some db_port =>
    if truthyOptStr db_host then
      ((.ok (db_host, db_port, db_user, db_password, db_name)),
       [.logInfo ("DB 연결 설정: host=" ++ showOpt db_host ++ ", db=" ++ showOpt db_name
         ++ ", user=" ++ showOpt db_user)])
    else
      let rh := load_parameter_safe w "/fitcloud/prd/db/ts/host"
      if truthyOptStr rh.1 then
        let tr0 := rh.2 ++ [.logInfo "DB 설정을 /fitcloud/prd/db/ts에서 로드합니다"]
        let ru := load_parameter_safe w "/fitcloud/prd/db/ts/id"
        let rp := load_parameter_safe w "/fitcloud/prd/db/ts/pw"
        ((.ok (rh.1, 3306, ru.1, rp.1, some "edp")),
         tr0 ++ ru.2 ++ rp.2
           ++ [.logInfo ("DB 연결 설정: host=" ++ showOpt rh.1 ++ ", db=" ++ showOpt (some "edp")
             ++ ", user=" ++ showOpt ru.1)])
      else
        let tr0 := rh.2 ++ [.logInfo ("DB 설정을 /fitcloud/" ++ env_type ++ "/db에서 로드합니다")]
        let lh := load_parameter w ("/fitcloud/" ++ env_type ++ "/db/host")
        match lh.1 with
        | .error e => (.error e, tr0 ++ lh.2)
        | .ok h3 =>
          let lu := load_parameter w ("/fitcloud/" ++ env_type ++ "/db/user/admin/id")
          match lu.1 with
          | .error e => (.error e, tr0 ++ lh.2 ++ lu.2)
          | .ok u3 =>
            let lp := load_parameter w ("/fitcloud/" ++ env_type ++ "/db/user/admin/pw")
            match lp.1 with
            | .error e => (.error e, tr0 ++ lh.2 ++ lu.2 ++ lp.2)
            | .ok p3 =>
              let ld := load_parameter w ("/fitcloud/" ++ env_type ++ "/db/db")
              match ld.1 with
              | .error e => (.error e, tr0 ++ lh.2 ++ lu.2 ++ lp.2 ++ ld.2)
              | .ok n3 =>
                ((.ok (some h3, db_port, some u3, some p3, some n3)),
                 tr0 ++ lh.2 ++ lu.2 ++ lp.2 ++ ld.2
                   ++ [.logInfo ("DB 연결 설정: host=" ++ showOpt (some h3) ++ ", db="
                     ++ showOpt (some n3) ++ ", user=" ++ showOpt (some u3))])

/-- `get_db_connection_pool`: first-use-wins cache per `env_type`; on a miss,
resolve the settings and construct a fresh `ConnectionPool` object. -/
def get_db_connection_pool (w : World) (st : CredState) (env_type : String) :
    Except PyErr Pool × CredState × List Event :=
  match lookupPool st.dbPoolCache env_type with
  | some pool => (.ok pool, st, [])
  | none =>
    match resolve_db_settings w env_type with
    | (.error e, tr) => (.error e, st, tr)
    | (.ok (h, port, u, pw, d), tr) =>
      let pool : Pool :=
        { poolId := st.nextPoolId, name := "credential_pool_" ++ env_type,
          size := 2, maxsize := 3, pre_create_num := 2,
          host := h, port := port, user := u, password := pw, database := d,
          charset := "utf8" }
      (.ok pool,
       { dbPoolCache := (env_type, pool) :: st.dbPoolCache,
         nextPoolId := st.nextPoolId + 1 },
       tr)

/-- Whether a byte is a UTF-8 continuation byte (`0x80`–`0xBF`). -/
def isContByte (b : Nat) : Bool := 0x80 ≤ b && b ≤ 0xBF

/-- Decode one UTF-8 scalar value (the leading byte `b` plus however many
continuation bytes it requires from `rest`), strict as Python's
`bytes.decode('utf-8')`: truncated sequences, stray continuation bytes,
overlong encodings, surrogate code points and values above `0x10FFFF` all
fail.  Returns the character and the bytes that follow it. -/
def utf8Step (b : Nat) (rest : List Nat) : Option (Char × List Nat) :=
  if b < 0x80 then some (Char.ofNat b, rest)
  else if 0xC2 ≤ b && b ≤ 0xDF then
    match rest with
    | b2 :: r =>
      if isContByte b2 then some (Char.ofNat ((b - 0xC0) * 64 + (b2 - 0x80)), r)
      else none
    | [] => none
  else if 0xE0 ≤ b && b ≤ 0xEF then
    match rest with
    | b2 :: b3 :: r =>
      if isContByte b2 && isContByte b3 then
        let c := (b - 0xE0) * 4096 + (b2 - 0x80) * 64 + (b3 - 0x80)
        if 0x800 ≤ c && !(0xD800 ≤ c && c ≤ 0xDFFF) then some (Char.ofNat c, r)
        else none
      else none
    | _ => none
  else if 0xF0 ≤ b && b ≤ 0xF4 then
    match rest with
    | b2 :: b3 :: b4 :: r =>
      if isContByte b2 && isContByte b3 && isContByte b4 then
        let c := (b - 0xF0) * 262144 + (b2 - 0x80) * 4096 + (b3 - 0x80) * 64 + (b4 - 0x80)
        if 0x10000 ≤ c && c ≤ 0x10FFFF then some (Char.ofNat c, r)
        else none
      else none
    | _ => none
  else none

/-- Strict UTF-8 decoding, driven by a fuel counter for structural
recursion.  Each decoded character consumes at least the leading byte, so a
fuel of the list's length never runs out. -/
def utf8DecodeListFuel : Nat → List Nat → Option (List Char)
  | _, [] => some []
  | 0, _ :: _ => none
  | fuel + 1, b :: rest =>
    match utf8Step b rest with
    | none => none
    | some (c, r) => (utf8DecodeListFuel fuel r).map (c :: ·)

/-- Strict UTF-8 decoding of a byte list (the semantics of Python
`bytes.decode('utf-8')`); `none` models a raised `UnicodeDecodeError`. -/
def utf8DecodeList (bs : List Nat) : Option (List Char) :=
  utf8DecodeListFuel bs.length bs

/-- `bytes.decode('utf-8')` as a `String`. -/
def utf8Decode (bs : List Nat) : Option String :=
  (utf8DecodeList bs).map fun cs => ⟨cs⟩

/-- Python `s.replace('b', '')`: remove every literal `'b'` character. -/
def stripB (s : String) : String := ⟨s.data.filter (fun c => c != 'b')⟩

/-- MySQL `v != ''` as used in the row filter of both lookup queries:
`NULL` compares to nothing (row excluded), byte strings and character
strings are compared to the empty string, numbers coerce `''` to `0`. -/
def sqlNeqEmpty : SqlVal → Bool
  | .null => false
  | .int n => n != 0
  | .str s => s != ""
  | .bytes bs => !bs.isEmpty

/-- One fetched row of either lookup query, in column order. -/
structure FetchedRow where
  corp_id : SqlVal
  corp_name : SqlVal
  account_id : SqlVal
  cross_account_role_name : SqlVal
  assume_role_type : SqlVal
  external_id : SqlVal
deriving DecidableEq, Repr

/-- Whether `needle` occurs inside `hay` (character-list infix). -/
def listContainsSub : List Char → List Char → Bool
  | _, [] => true
  | [], _ :: _ => false
  | c :: hs, needle =>
    if List.isPrefixOf needle (c :: hs) then true else listContainsSub hs needle

/-- MySQL `hay LIKE '%needle%'` for a needle without wildcard characters:
substring containment. -/
def strContainsSub (hay needle : String) : Bool := listContainsSub hay.data needle.data

/-- The result rows of the `get_account_info_from_db` query against the
relational store: `corporation` (with `delete_flag = 0`) joined to
`corporation_add_info` and `account`, filtered on the exact `account_id`,
on a non-empty in-database decryption of `cross_account_role_name` under
the given secret title, and on `account.delete_flag = 0`; `LIMIT 1` is the
caller's `head?`. -/
def queryRowsById (w : World) (secret_title account_id : String) : List FetchedRow :=
  ((w.corporation.filter fun c => c.delete_flag == 0).filter
      fun c => w.corporation_add_info.contains c.corp_id).flatMap
    fun c =>
      ((w.account.filter fun a => a.corp_id == c.corp_id).filter
          fun a => a.account_id == account_id
            && sqlNeqEmpty (w.decryptRole a.cross_account_role_name secret_title)
            && a.delete_flag == 0).map
        fun a =>
          { corp_id := .int c.corp_id, corp_name := .str c.corp_name,
            account_id := .str a.account_id,
            cross_account_role_name := w.decryptRole a.cross_account_role_name secret_title,
            assume_role_type := a.assume_role_type, external_id := a.external_id }

/-- The result rows of the `search_account_by_name` query: as
`queryRowsById` but the corporation set is filtered by
`corp_name LIKE '%corp_name%'` instead of an `account_id` equality. -/
def queryRowsByName (w : World) (secret_title corp_name : String) : List FetchedRow :=
  (((w.corporation.filter fun c => c.delete_flag == 0).filter
        fun c => strContainsSub c.corp_name corp_name).filter
      fun c => w.corporation_add_info.contains c.corp_id).flatMap
    fun c =>
      ((w.account.filter fun a => a.corp_id == c.corp_id).filter
          fun a => sqlNeqEmpty (w.decryptRole a.cross_account_role_name secret_title)
            && a.delete_flag == 0).map
        fun a =>
          { corp_id := .int c.corp_id, corp_name := .str c.corp_name,
            account_id := .str a.account_id,
            cross_account_role_name := w.decryptRole a.cross_account_role_name secret_title,
            assume_role_type := a.assume_role_type, external_id := a.external_id }

/-- The account-information dictionary built from a fetched row. -/
structure AccountInfo where
  corp_id : SqlVal
  corp_name : SqlVal
  account_id : SqlVal
  role_name : SqlVal
  assume_role_type : SqlVal
  external_id : SqlVal
deriving DecidableEq, Repr

/-- The post-query normalization of the decrypted role-name column:
`role_name.decode('utf-8').replace('b', '')` when it arrived as bytes
(a failed decode raises), any other value passed through unchanged. -/
def normalize_role_name : SqlVal → Except PyErr SqlVal
  | .bytes bs =>
    match utf8Decode bs with
    | some s => .ok (.str (stripB s))
    | none => .error .unicodeDecodeError
  | v => .ok v

/-- Build the returned dictionary from a fetched row (source lines 209–221):
normalize the role name, replace a falsy `external_id` by `""`. -/
def rowToInfo (row : FetchedRow) : Except PyErr AccountInfo :=
  match normalize_role_name row.cross_account_role_name with
  | .error e => .error e
  | .ok rn =>
    .ok { corp_id := row.corp_id, corp_name := row.corp_name,
          account_id := row.account_id, role_name := rn,
          assume_role_type := row.assume_role_type,
          external_id := if truthySql row.external_id then row.external_id else .str "" }

/-- A short rendering of the caught exception for the error log line. -/
def pyErrMsg : PyErr → String
  | .parameterNotFound p => "ParameterNotFound: " ++ p
  | .dbConnectError => "connect error"
  | .unicodeDecodeError => "unicode decode error"
  | .valueError => "invalid literal for int()"
  | .stsError m => "sts error: " ++ m

/-- `get_account_info_from_db`: resolve the pool (outside the `try`: a
failure here propagates), then inside `try`/`except`: acquire a connection,
resolve the secret title, run the lookup query, fetch one row and build the
dictionary; every failure inside the `try` is logged and converted to
`none`.  The connection is closed in `finally` (no observable effect in
this model). -/
def get_account_info_from_db (w : World) (st : CredState) (account_id : String)
    (env_type : String) : Except PyErr (Option AccountInfo) × CredState × List Event :=
  match get_db_connection_pool w st env_type with
  | (.error e, st1, tr1) => (.error e, st1, tr1)
  | (.ok _pool, st1, tr1) =>
    if w.dbReachable then
      match get_db_secret_title w env_type with
      | (.error e, tr2) =>
        (.ok none, st1, tr1 ++ tr2 ++ [.logError ("DB 조회 실패: " ++ pyErrMsg e)])
      | (.ok title, tr2) =>
        match (queryRowsById w title account_id).head? with
        | none => (.ok none, st1, tr1 ++ tr2)
        | some row =>
          match rowToInfo row with
          | .ok info => (.ok (some info), st1, tr1 ++ tr2)
          | .error e =>
            (.ok none, st1, tr1 ++ tr2 ++ [.logError ("DB 조회 실패: " ++ pyErrMsg e)])
    else
      (.ok none, st1, tr1 ++ [.logError ("DB 조회 실패: " ++ pyErrMsg .dbConnectError)])

/-- `search_account_by_name`: as `get_account_info_from_db` but with the
name query and its log message. -/
def search_account_by_name (w : World) (st : CredState) (corp_name : String)
    (env_type : String) : Except PyErr (Option AccountInfo) × CredState × List Event :=
  match get_db_connection_pool w st env_type with
  | (.error e, st1, tr1) => (.error e, st1, tr1)
  | (.ok _pool, st1, tr1) =>
    if w.dbReachable then
      match get_db_secret_title w env_type with
      | (.error e, tr2) =>
        (.ok none, st1, tr1 ++ tr2 ++ [.logError ("DB 검색 실패: " ++ pyErrMsg e)])
      | (.ok title, tr2) =>
        match (queryRowsByName w title corp_name).head? with
        | none => (.ok none, st1, tr1 ++ tr2)
        | some row =>
          match rowToInfo row with
          | .ok info => (.ok (some info), st1, tr1 ++ tr2)
          | .error e =>
            (.ok none, st1, tr1 ++ tr2 ++ [.logError ("DB 검색 실패: " ++ pyErrMsg e)])
    else
      (.ok none, st1, tr1 ++ [.logError ("DB 검색 실패: " ++ pyErrMsg .dbConnectError)])

/-- The target role ARN `f"arn:aws:iam::{account_id}:role/{role_name}"`. -/
def roleArnOf (account_id role_name : String) : String :=
  "arn:aws:iam::" ++ account_id ++ ":role/" ++ role_name

/-- `get_assumed_role_credential`: for `assume_role_type == "User"`, load the
long-lived key pair from the parameter store and issue one `assume_role`
authenticated by it (no external id); otherwise load the bridge account id,
external id and role name, assume the bridge role with ambient credentials,
then assume the target role authenticated by the bridge session's triple,
attaching the caller's external id only when it is truthy. -/
def get_assumed_role_credential (w : World) (account_id role_name : String)
    (external_id : Option String) (assume_role_type : String) :
    Except PyErr Creds × List Event :=
  let role_arn := roleArnOf account_id role_name
  if assume_role_type == "User" then
    match load_parameter w CROSSACCOUNT_ACCESS_KEY with
    | (.error e, t1) => (.error e, t1)
    | (.ok ak, t1) =>
      match load_parameter w CROSSACCOUNT_SECRET_KEY with
      | (.error e, t2) => (.error e, t1 ++ t2)
      | (.ok sk, t2) =>
        let auth := Auth.keyPair ak sk
        let ps : AssumeRoleParams :=
          { roleArn := role_arn, roleSessionName := "cloudtrail_bot_session",
            externalId := none }
        match w.stsAssume auth ps with
        | .error e => (.error e, t1 ++ t2 ++ [.stsAssumeRole auth ps])
        | .ok c => (.ok c, t1 ++ t2 ++ [.stsAssumeRole auth ps])
  else
    match load_parameter w CROSSACCOUNT_BRIDGE_ACCOUNDID with
    | (.error e, t1) => (.error e, t1)
    | (.ok bridge_account_id, t1) =>
      match load_parameter w CROSSACCOUNT_BRIDGE_EXTERNALID with
      | (.error e, t2) => (.error e, t1 ++ t2)
      | (.ok bridge_external_id, t2) =>
        match load_parameter w CROSSACCOUNT_BRIDGE_ROLENAME with
        | (.error e, t3) => (.error e, t1 ++ t2 ++ t3)
        | (.ok bridge_role_name, t3) =>
          let bridge_ps : AssumeRoleParams :=
            { roleArn := roleArnOf bridge_account_id bridge_role_name,
              roleSessionName := "bridge_session",
              externalId := some bridge_external_id }
          match w.stsAssume .ambient bridge_ps with
          | .error e => (.error e, t1 ++ t2 ++ t3 ++ [.stsAssumeRole .ambient bridge_ps])
          | .ok bc =>
            let auth2 := Auth.triple bc.accessKeyId bc.secretAccessKey bc.sessionToken
            let ps : AssumeRoleParams :=
              { roleArn := role_arn, roleSessionName := "cloudtrail_bot_session",
                externalId := if truthyOptStr external_id then external_id else none }
            match w.stsAssume auth2 ps with
            | .error e =>
              (.error e,
               t1 ++ t2 ++ t3 ++ [.stsAssumeRole .ambient bridge_ps, .stsAssumeRole auth2 ps])
            | .ok c =>
              (.ok c,
               t1 ++ t2 ++ t3 ++ [.stsAssumeRole .ambient bridge_ps, .stsAssumeRole auth2 ps])

/-- Python `str(v)` for a driver value interpolated into an f-string.
(The byte-string rendering abbreviates Python's `repr`-style `b'…'`.) -/
def pyStrOfSql : SqlVal → String
  | .null => "None"
  | .int n => toString n
  | .str s => s
  | .bytes _ => "bytes"

/-- A dictionary value handed on as an `Optional[str]` argument: `NULL`
becomes `None`, everything else its string rendering (Python passes the
value itself; only truthiness and string interpolation observe it, which
this rendering preserves on the string-valued columns the tables hold). -/
def sqlToOptStr : SqlVal → Option String
  | .null => none
  | v => some (pyStrOfSql v)

/-- `env_type = env_type if env_type is not None else os.environ.get("ENV_TYPE", "dev")`. -/
def resolvedEnvType (w : World) (env_type : Option String) : String :=
  match env_type with
  | some et => et
  | none => (w.env "ENV_TYPE").getD "dev"

/-- `get_credential_by_account_id`: directory lookup, then (only when a
record was found) the role-assumption flow with the record's fields. -/
def get_credential_by_account_id (w : World) (st : CredState) (account_id : String)
    (env_type : Option String) : Except PyErr (Option Creds) × CredState × List Event :=
  let et := resolvedEnvType w env_type
  match get_account_info_from_db w st account_id et with
  | (.error e, st1, tr1) => (.error e, st1, tr1)
  | (.ok none, st1, tr1) =>
    (.ok none, st1,
     tr1 ++ [.logWarning ("Account ID '" ++ account_id ++ "'에 대한 정보를 찾을 수 없습니다.")])
  | (.ok (some info), st1, tr1) =>
    let tr2 := tr1 ++ [.logInfo ("DB 조회 성공: " ++ pyStrOfSql info.corp_name
      ++ " (" ++ account_id ++ ")")]
    match get_assumed_role_credential w (pyStrOfSql info.account_id)
        (pyStrOfSql info.role_name) (sqlToOptStr info.external_id)
        (pyStrOfSql info.assume_role_type) with
    | (.error e, tr3) => (.error e, st1, tr2 ++ tr3)
    | (.ok c, tr3) => (.ok (some c), st1, tr2 ++ tr3)

/-- `get_credential_by_corp_name`: as `get_credential_by_account_id` but via
the name search, returning the record together with the credential. -/
def get_credential_by_corp_name (w : World) (st : CredState) (corp_name : String)
    (env_type : Option String) :
    Except PyErr (Option (AccountInfo × Creds)) × CredState × List Event :=
  let et := resolvedEnvType w env_type
  match search_account_by_name w st corp_name et with
  | (.error e, st1, tr1) => (.error e, st1, tr1)
  | (.ok none, st1, tr1) =>
    (.ok none, st1,
     tr1 ++ [.logWarning ("회사명 '" ++ corp_name ++ "'에 대한 계정을 찾을 수 없습니다.")])
  | (.ok (some info), st1, tr1) =>
    let tr2 := tr1 ++ [.logInfo ("계정 검색 성공: " ++ pyStrOfSql info.corp_name
      ++ " (" ++ pyStrOfSql info.account_id ++ ")")]
    match get_assumed_role_credential w (pyStrOfSql info.account_id)
        (pyStrOfSql info.role_name) (sqlToOptStr info.external_id)
        (pyStrOfSql info.assume_role_type) with
    | (.error e, tr3) => (.error e, st1, tr2 ++ tr3)
    | (.ok c, tr3) => (.ok (some (info, c)), st1, tr2 ++ tr3)

/-- The `role_name` field of the record a directory lookup returns, when it
returns one. -/
def role_name_of (w : World) (st : CredState) (account_id env_type : String) :
    Option SqlVal :=
  match (get_account_info_from_db w st account_id env_type).1 with
  | .ok (some info) => some info.role_name
  | _ => none

/-- Whether an `Except` result is a normal return (no raised exception). -/
def isOkE {α : Type} : Except PyErr α → Bool
  | .ok _ => true
  | .error _ => false

/-- Whether an event is a parameter-store read. -/
def Event.isSsmGet : Event → Bool
  | .ssmGet _ => true
  | _ => false

/-- A finite environment / parameter store as a lookup function. -/
def envOf (l : List (String × String)) : String → Option String :=
  fun k => (l.find? fun kv => kv.1 == k).map (·.2)

/-- A world with nothing configured, no rows, a reachable database and a
denying STS endpoint; concrete worlds below override pieces of it. -/
def baseWorld : World :=
  { env := fun _ => none, ssm := fun _ => none,
    corporation := [], corporation_add_info := [], account := [],
    decryptRole := fun _ _ => .null, dbReachable := true,
    stsAssume := fun _ _ => .error (.stsError "AccessDenied") }

/-- Database target and secret title supplied by environment variables. -/
def wOk : World :=
  { baseWorld with env := envOf [("DB_HOST", "h"), ("DB_SECRET_TITLE", "t")] }

/-- Both candidate secondary parameter paths populated, with distinct
values, and no environment overrides. -/
def wC5 : World :=
  { baseWorld with
    ssm := envOf [("/cloudtrail-bot/dev/db/host", "ct-host"),
                  ("/fitcloud/prd/db/ts/host", "fp-host"),
                  ("/fitcloud/prd/db/ts/id", "fp-id"),
                  ("/fitcloud/prd/db/ts/pw", "fp-pw")] }

/-- Override, primary and legacy secret-title sources all defined with
different values. -/
def wC6a : World :=
  { baseWorld with
    env := envOf [("DB_SECRET_TITLE", "override-title")],
    ssm := envOf [("/cloudtrail-bot/dev/db/secret-title", "primary-title"),
                  ("/fitcloud/dev/db/secret_title", "legacy-title")] }

/-- Only the primary and legacy secret-title sources defined. -/
def wC6b : World :=
  { baseWorld with
    ssm := envOf [("/cloudtrail-bot/dev/db/secret-title", "primary-title"),
                  ("/fitcloud/dev/db/secret_title", "legacy-title")] }

/-- No secret-title source defined anywhere. -/
def wC6c : World := baseWorld

/-- All five broker parameters configured; the STS endpoint answers the
ambient-credential call with one triple and any other call with another. -/
def wSts : World :=
  { baseWorld with
    ssm := envOf [(CROSSACCOUNT_ACCESS_KEY, "AKIA"), (CROSSACCOUNT_SECRET_KEY, "SECR"),
                  (CROSSACCOUNT_BRIDGE_ACCOUNDID, "222233334444"),
                  (CROSSACCOUNT_BRIDGE_EXTERNALID, "br-ext"),
                  (CROSSACCOUNT_BRIDGE_ROLENAME, "BridgeRole")],
    stsAssume := fun a _ =>
      match a with
      | .ambient => .ok ⟨"BAK", "BSK", "BTK"⟩
      | _ => .ok ⟨"TAK", "TSK", "TTK"⟩ }

/-- As `wSts` but every STS call is denied. -/
def wStsErr : World :=
  { wSts with stsAssume := fun _ _ => .error (.stsError "AccessDenied") }

/-- One tenant whose stored role name decrypts to the byte string
`b"bb"` — non-empty, so the row passes the query filter. -/
def wC9 : World :=
  { baseWorld with
    env := envOf [("DB_HOST", "db.local"), ("DB_SECRET_TITLE", "sekret")],
    corporation := [{ corp_id := 1, corp_name := "acme", delete_flag := 0 }],
    corporation_add_info := [1],
    account := [{ corp_id := 1, account_id := "111122223333",
                  cross_account_role_name := "CC", assume_role_type := .str "Role",
                  external_id := .null, delete_flag := 0 }],
    decryptRole := fun c t => if c == "CC" && t == "sekret" then .bytes [98, 98] else .null }

/-- As `wC9` but the driver delivers the decrypted column as a character
string. -/
def wStrRow : World :=
  { wC9 with
    decryptRole := fun c t => if c == "CC" && t == "sekret" then .str "CrossRole" else .null }

/-- The pool `wOk` builds for environment key `dev` on the first call. -/
def c4p1 : Pool :=
  { poolId := 0, name := "credential_pool_dev", size := 2, maxsize := 3,
    pre_create_num := 2, host := some "h", port := 3306, user := none,
    password := none, database := none, charset := "utf8" }

/-- The pool `wOk` builds for environment key `prd` on the second call. -/
def c4p2 : Pool :=
  { poolId := 1, name := "credential_pool_prd", size := 2, maxsize := 3,
    pre_create_num := 2, host := some "h", port := 3306, user := none,
    password := none, database := none, charset := "utf8" }

/-- Cache well-formedness: every cached pool was allocated below the
current counter, and distinct keys cache distinct pool objects.  Holds for
the initial state and is preserved by `get_db_connection_pool`. -/
def poolCacheWF (st : CredState) : Prop :=
  (∀ k p, lookupPool st.dbPoolCache k = some p → p.poolId < st.nextPoolId) ∧
  (∀ k1 k2 p1 p2, lookupPool st.dbPoolCache k1 = some p1 →
    lookupPool st.dbPoolCache k2 = some p2 → k1 ≠ k2 → p1.poolId ≠ p2.poolId)

lemma stsCallsOf_append (a b : List Event) :
    stsCallsOf (a ++ b) = stsCallsOf a ++ stsCallsOf b := by
  induction a with
  | nil => rfl
  | cons e r ih => cases e <;> simp [stsCallsOf, ih]

lemma lookupPool_insert_self (c : List (String × Pool)) (k : String) (p : Pool) :
    lookupPool ((k, p) :: c) k = some p := by
  simp [lookupPool]

lemma lookupPool_insert_ne (c : List (String × Pool)) (k key : String) (p : Pool)
    (h : k ≠ key) : lookupPool ((k, p) :: c) key = lookupPool c key := by
  simp [lookupPool, h]

lemma lookupPool_mono (c : List (String × Pool)) (kn : String) (pn : Pool)
    (k : String) (p : Pool) (hmiss : lookupPool c kn = none)
    (h : lookupPool c k = some p) : lookupPool ((kn, pn) :: c) k = some p := by
  have hne : kn ≠ k := by
    rintro rfl
    rw [hmiss] at h
    cases h
  rw [lookupPool_insert_ne c kn k pn hne]
  exact h

/-- A successful `get_db_connection_pool` call either served the cached pool
unchanged, or created a fresh pool (carrying the current counter as its
identity) and registered it. -/
lemma get_db_connection_pool_cases (w : World) (st : CredState) (k : String)
    (p : Pool) (st' : CredState) (tr : List Event)
    (h : get_db_connection_pool w st k = (.ok p, st', tr)) :
    (lookupPool st.dbPoolCache k = some p ∧ st' = st) ∨
    (lookupPool st.dbPoolCache k = none ∧ p.poolId = st.nextPoolId ∧
      st' = ⟨(k, p) :: st.dbPoolCache, st.nextPoolId + 1⟩) := by
  unfold get_db_connection_pool at h
  split at h
  · simp only [Prod.mk.injEq, Except.ok.injEq] at h
    left
    obtain ⟨rfl, rfl, rfl⟩ := h
    exact ⟨by assumption, rfl⟩
  · right
    split at h
    all_goals simp at h
    case _ =>
      obtain ⟨h1, h2, h3⟩ := h
      refine ⟨by assumption, ?_, ?_⟩
      · rw [← h1]
      · rw [← h2, h1]

/-- C1 (counterexample): with nothing configured, the directory lookup
`get_account_info_from_db` raises the strict parameter-store failure coming
from `get_db_connection_pool` to its caller instead of returning an absent
result — the pool acquisition happens outside the `try` block. -/
theorem c1_counterexample :
    (get_account_info_from_db baseWorld st0 "123456789012" "dev").1 =
      .error (.parameterNotFound "/fitcloud/dev/db/host") := by decide

/-- C1 (amended): once `get_db_connection_pool` has succeeded, every further
failure of the lookup (connection acquisition, secret-title resolution, the
query, row decoding) is caught and converted to an absent result — the
lookup never raises past the pool-resolution step. -/
theorem c1_lookup_never_raises_after_pool (w : World) (st : CredState)
    (account_id env_type : String)
    (hpool : isOkE (get_db_connection_pool w st env_type).1 = true) :
    isOkE (get_account_info_from_db w st account_id env_type).1 = true := by
  rcases hp : get_db_connection_pool w st env_type with ⟨r, st1, tr1⟩
  rw [hp] at hpool
  cases r with
  | error e => simp [isOkE] at hpool
  | ok p =>
    unfold get_account_info_from_db
    rw [hp]
    dsimp only
    split
    · rcases ht : get_db_secret_title w env_type with ⟨rt, tr2⟩
      cases rt with
      | error e => simp [isOkE]
      | ok title =>
        dsimp only
        cases hq : (queryRowsById w title account_id).head? with
        | none => simp [isOkE]
        | some row =>
          cases hri : rowToInfo row with
          | error e => simp [isOkE, hri]
          | ok info => simp [isOkE, hri]
    · simp [isOkE]

/-- Witness for C1 (amended): a concrete world where the pool resolves from
the environment and the lookup returns without raising. -/
theorem c1_lookup_never_raises_after_pool_witness :
    isOkE (get_account_info_from_db wOk st0 "123456789012" "dev").1 = true :=
  c1_lookup_never_raises_after_pool wOk st0 "123456789012" "dev" (by decide)

lemma get_db_connection_pool_cases_proj (w : World) (st : CredState) (k : String)
    (p : Pool) (h : (get_db_connection_pool w st k).1 = .ok p) :
    (lookupPool st.dbPoolCache k = some p ∧ (get_db_connection_pool w st k).2.1 = st) ∨
    (lookupPool st.dbPoolCache k = none ∧ p.poolId = st.nextPoolId ∧
      (get_db_connection_pool w st k).2.1 =
        ⟨(k, p) :: st.dbPoolCache, st.nextPoolId + 1⟩) := by
  have e : get_db_connection_pool w st k =
      (.ok p, (get_db_connection_pool w st k).2.1, (get_db_connection_pool w st k).2.2) := by
    rw [← h]
  exact get_db_connection_pool_cases w st k p _ _ e

/-- C4: `get_db_connection_pool` is idempotent per environment key — a
second call with the same key returns the identical pool object, a second
call with a different key returns a distinct pool object, and cached
entries are never evicted. -/
theorem c4_pool_idempotent (w : World) (st : CredState) (k1 k2 : String)
    (p1 p2 : Pool) (hwf : poolCacheWF st)
    (h1 : (get_db_connection_pool w st k1).1 = .ok p1)
    (h2 : (get_db_connection_pool w ((get_db_connection_pool w st k1).2.1) k2).1 = .ok p2) :
    (k1 = k2 → p2 = p1) ∧ (k1 ≠ k2 → p2 ≠ p1) ∧
    (∀ k p, lookupPool st.dbPoolCache k = some p →
      lookupPool ((get_db_connection_pool w ((get_db_connection_pool w st k1).2.1) k2).2.1).dbPoolCache k
        = some p) := by
  have D1 := get_db_connection_pool_cases_proj w st k1 p1 h1
  have D2 := get_db_connection_pool_cases_proj w
    ((get_db_connection_pool w st k1).2.1) k2 p2 h2
  have hl1 : lookupPool ((get_db_connection_pool w st k1).2.1).dbPoolCache k1 = some p1 := by
    rcases D1 with ⟨hc1, hs1⟩ | ⟨hm1, hid1, hs1⟩
    · rw [hs1]; exact hc1
    · rw [hs1]; exact lookupPool_insert_self st.dbPoolCache k1 p1
  refine ⟨?_, ?_, ?_⟩
  · rintro rfl
    rcases D2 with ⟨hc2, _⟩ | ⟨hm2, _, _⟩
    · rw [hl1] at hc2
      exact (Option.some.inj hc2).symm
    · rw [hl1] at hm2
      cases hm2
  · intro hne
    have hid : p2.poolId ≠ p1.poolId := by
      rcases D1 with ⟨hc1, hs1⟩ | ⟨hm1, hid1, hs1⟩
      · rcases D2 with ⟨hc2, _⟩ | ⟨hm2, hid2, _⟩
        · rw [hs1] at hc2
          exact (hwf.2 k1 k2 p1 p2 hc1 hc2 hne).symm
        · rw [hs1] at hid2
          have hlt := hwf.1 k1 p1 hc1
          omega
      · rcases D2 with ⟨hc2, _⟩ | ⟨hm2, hid2, _⟩
        · rw [hs1] at hc2
          dsimp only at hc2
          rw [lookupPool_insert_ne st.dbPoolCache k1 k2 p1 hne] at hc2
          have hlt := hwf.1 k2 p2 hc2
          omega
        · rw [hs1] at hid2
          dsimp only at hid2
          omega
    intro he
    rw [he] at hid
    exact hid rfl
  · intro k p hkp
    have s1 : lookupPool ((get_db_connection_pool w st k1).2.1).dbPoolCache k = some p := by
      rcases D1 with ⟨hc1, hs1⟩ | ⟨hm1, hid1, hs1⟩
      · rw [hs1]; exact hkp
      · rw [hs1]; exact lookupPool_mono st.dbPoolCache k1 p1 k p hm1 hkp
    rcases D2 with ⟨hc2, hs2⟩ | ⟨hm2, hid2, hs2⟩
    · rw [hs2]; exact s1
    · rw [hs2]
      exact lookupPool_mono ((get_db_connection_pool w st k1).2.1).dbPoolCache k2 p2 k p hm2 s1

/-- Witness for C4: two concrete calls against an empty cache, one per
environment key, yielding the two distinct pools `c4p1` and `c4p2`. -/
theorem c4_pool_idempotent_witness :
    ("dev" = "prd" → c4p2 = c4p1) ∧ ("dev" ≠ "prd" → c4p2 ≠ c4p1) ∧
    (∀ k p, lookupPool st0.dbPoolCache k = some p →
      lookupPool ((get_db_connection_pool wOk ((get_db_connection_pool wOk st0 "dev").2.1) "prd").2.1).dbPoolCache k
        = some p) :=
  c4_pool_idempotent wOk st0 "dev" "prd" c4p1 c4p2
    ⟨fun k p h => by simp [st0, lookupPool] at h,
     fun k1 k2 p1 p2 h1 _ _ => by simp [st0, lookupPool] at h1⟩
    (by decide) (by decide)

/-- C5 (code evidence): with both candidate secondary parameter namespaces
populated, the pool settings for environment key `dev` come from the fixed
`/fitcloud/prd/db/ts` prefix — not from the environment-scoped
`/cloudtrail-bot/dev/db` namespace that the function's own docstring and
block comment describe, which is never consulted. -/
theorem c5_secondary_tier_uses_fixed_fitcloud_prd_prefix :
    (get_db_connection_pool wC5 st0 "dev").1 =
      .ok { poolId := 0, name := "credential_pool_dev", size := 2, maxsize := 3,
            pre_create_num := 2, host := some "fp-host", port := 3306,
            user := some "fp-id", password := some "fp-pw", database := some "edp",
            charset := "utf8" } ∧
    Event.ssmGet "/fitcloud/prd/db/ts/host" ∈ (get_db_connection_pool wC5 st0 "dev").2.2 ∧
    Event.ssmGet "/cloudtrail-bot/dev/db/host" ∉ (get_db_connection_pool wC5 st0 "dev").2.2 := by
  exact ⟨by decide, by decide, by decide⟩

/-- C6: the decryption-key-label resolver returns the explicit override when
it is set non-empty, falls back to the primary `/cloudtrail-bot` namespace
when the override is absent, and raises the strict final-tier
parameter-store failure when no source has the value. -/
theorem c6_secret_title_precedence (w1 w2 w3 : World) (et o p : String)
    (h1o : w1.env "DB_SECRET_TITLE" = some o) (ho : o ≠ "")
    (h2e : w2.env "DB_SECRET_TITLE" = none)
    (h2p : w2.ssm ("/cloudtrail-bot/" ++ et ++ "/db/secret-title") = some p) (hp : p ≠ "")
    (h3e : w3.env "DB_SECRET_TITLE" = none)
    (h3p : w3.ssm ("/cloudtrail-bot/" ++ et ++ "/db/secret-title") = none)
    (h3l : w3.ssm ("/fitcloud/" ++ et ++ "/db/secret_title") = none) :
    (get_db_secret_title w1 et).1 = .ok o ∧
    (get_db_secret_title w2 et).1 = .ok p ∧
    (get_db_secret_title w3 et).1 =
      .error (.parameterNotFound ("/fitcloud/" ++ et ++ "/db/secret_title")) := by
  refine ⟨?_, ?_, ?_⟩
  · unfold get_db_secret_title
    rw [h1o]
    simp [truthyOptStr, ho]
  · unfold get_db_secret_title load_parameter_safe load_parameter
    rw [h2e, h2p]
    simp [truthyOptStr, hp, Except.toOption]
  · unfold get_db_secret_title load_parameter_safe load_parameter
    rw [h3e, h3p, h3l]
    simp [truthyOptStr, Except.toOption]

/-- Witness for C6 at concrete configuration sources. -/
theorem c6_secret_title_precedence_witness :
    (get_db_secret_title wC6a "dev").1 = .ok "override-title" ∧
    (get_db_secret_title wC6b "dev").1 = .ok "primary-title" ∧
    (get_db_secret_title wC6c "dev").1 =
      .error (.parameterNotFound ("/fitcloud/" ++ "dev" ++ "/db/secret_title")) :=
  c6_secret_title_precedence wC6a wC6b wC6c "dev" "override-title" "primary-title"
    (by decide) (by decide) (by decide) (by decide) (by decide) (by decide)
    (by decide) (by decide)

/-- C10: with `DB_HOST` set (non-empty) but `DB_USER`, `DB_PASSWORD` and
`DB_NAME` unset, the pool is built with those fields absent and port 3306
(`DB_PORT` unset) — no parameter-store tier is consulted, since the
fallback is keyed solely on the host being unset. -/
theorem c10_partial_override_not_completed (w : World) (st : CredState)
    (et hv : String)
    (hcache : lookupPool st.dbPoolCache et = none)
    (hhost : w.env "DB_HOST" = some hv) (hne : hv ≠ "")
    (huser : w.env "DB_USER" = none) (hpw : w.env "DB_PASSWORD" = none)
    (hname : w.env "DB_NAME" = none) (hport : w.env "DB_PORT" = none) :
    (get_db_connection_pool w st et).1 =
      .ok { poolId := st.nextPoolId, name := "credential_pool_" ++ et, size := 2,
            maxsize := 3, pre_create_num := 2, host := some hv, port := 3306,
            user := none, password := none, database := none, charset := "utf8" } ∧
    (get_db_connection_pool w st et).2.2.all (fun ev => !ev.isSsmGet) = true := by
  have h36 : pyInt "3306" = some 3306 := by decide
  unfold get_db_connection_pool resolve_db_settings
  rw [hcache, hhost, huser, hpw, hname, hport]
  simp [truthyOptStr, hne, h36, Event.isSsmGet]

/-- Witness for C10: `wOk` sets only `DB_HOST` (and the secret title). -/
theorem c10_partial_override_not_completed_witness :
    (get_db_connection_pool wOk st0 "dev").1 =
      .ok { poolId := st0.nextPoolId, name := "credential_pool_" ++ "dev", size := 2,
            maxsize := 3, pre_create_num := 2, host := some "h", port := 3306,
            user := none, password := none, database := none, charset := "utf8" } ∧
    (get_db_connection_pool wOk st0 "dev").2.2.all (fun ev => !ev.isSsmGet) = true :=
  c10_partial_override_not_completed wOk st0 "dev" "h" (by decide) (by decide)
    (by decide) (by decide) (by decide) (by decide) (by decide)

lemma user_trace (w : World) (account_id role_name : String) (ext : Option String)
    (ak sk : String)
    (hak : w.ssm CROSSACCOUNT_ACCESS_KEY = some ak)
    (hsk : w.ssm CROSSACCOUNT_SECRET_KEY = some sk) :
    stsCallsOf (get_assumed_role_credential w account_id role_name ext "User").2 =
      [⟨.keyPair ak sk,
        ⟨roleArnOf account_id role_name, "cloudtrail_bot_session", none⟩⟩] := by
  unfold get_assumed_role_credential load_parameter
  rw [hak, hsk]
  dsimp only
  split
  · split <;> simp [stsCallsOf]
  · simp_all

lemma role_trace (w : World) (account_id role_name : String) (ext : Option String)
    (baid beid brn : String) (bc : Creds)
    (hba : w.ssm CROSSACCOUNT_BRIDGE_ACCOUNDID = some baid)
    (hbe : w.ssm CROSSACCOUNT_BRIDGE_EXTERNALID = some beid)
    (hbr : w.ssm CROSSACCOUNT_BRIDGE_ROLENAME = some brn)
    (hok : w.stsAssume .ambient
      ⟨roleArnOf baid brn, "bridge_session", some beid⟩ = .ok bc) :
    stsCallsOf (get_assumed_role_credential w account_id role_name ext "Role").2 =
      [⟨.ambient, ⟨roleArnOf baid brn, "bridge_session", some beid⟩⟩,
       ⟨.triple bc.accessKeyId bc.secretAccessKey bc.sessionToken,
        ⟨roleArnOf account_id role_name, "cloudtrail_bot_session",
         if truthyOptStr ext then ext else none⟩⟩] := by
  unfold get_assumed_role_credential load_parameter
  rw [hba, hbe, hbr]
  dsimp only
  split
  · simp_all
  · rw [hok]
    dsimp only
    split <;> simp [stsCallsOf]

lemma role_trace_bridge_denied (w : World) (account_id role_name : String)
    (ext : Option String) (baid beid brn : String) (err : PyErr)
    (hba : w.ssm CROSSACCOUNT_BRIDGE_ACCOUNDID = some baid)
    (hbe : w.ssm CROSSACCOUNT_BRIDGE_EXTERNALID = some beid)
    (hbr : w.ssm CROSSACCOUNT_BRIDGE_ROLENAME = some brn)
    (herr : w.stsAssume .ambient
      ⟨roleArnOf baid brn, "bridge_session", some beid⟩ = .error err) :
    stsCallsOf (get_assumed_role_credential w account_id role_name ext "Role").2 =
      [⟨.ambient, ⟨roleArnOf baid brn, "bridge_session", some beid⟩⟩] := by
  unfold get_assumed_role_credential load_parameter
  rw [hba, hbe, hbr]
  dsimp only
  split
  · simp_all
  · rw [herr]
    simp [stsCallsOf]

/-- C2: the `User` path issues exactly one `assume_role`, authenticated by
the key pair loaded from configuration (never ambient credentials) and
carrying no external id, whatever external id the caller supplied; the
`Role` path's target call carries the caller's external id exactly when it
is non-empty and non-null, and omits it when it is `None` or `""`. -/
theorem c2_external_id_discipline (w : World)
    (account_id role_name e ak sk baid beid brn : String)
    (ext : Option String) (bc : Creds)
    (hak : w.ssm CROSSACCOUNT_ACCESS_KEY = some ak)
    (hsk : w.ssm CROSSACCOUNT_SECRET_KEY = some sk)
    (hba : w.ssm CROSSACCOUNT_BRIDGE_ACCOUNDID = some baid)
    (hbe : w.ssm CROSSACCOUNT_BRIDGE_EXTERNALID = some beid)
    (hbr : w.ssm CROSSACCOUNT_BRIDGE_ROLENAME = some brn)
    (he : e ≠ "")
    (hok : w.stsAssume .ambient
      ⟨roleArnOf baid brn, "bridge_session", some beid⟩ = .ok bc) :
    stsCallsOf (get_assumed_role_credential w account_id role_name ext "User").2 =
      [⟨.keyPair ak sk,
        ⟨roleArnOf account_id role_name, "cloudtrail_bot_session", none⟩⟩] ∧
    stsCallsOf (get_assumed_role_credential w account_id role_name (some e) "Role").2 =
      [⟨.ambient, ⟨roleArnOf baid brn, "bridge_session", some beid⟩⟩,
       ⟨.triple bc.accessKeyId bc.secretAccessKey bc.sessionToken,
        ⟨roleArnOf account_id role_name, "cloudtrail_bot_session", some e⟩⟩] ∧
    stsCallsOf (get_assumed_role_credential w account_id role_name none "Role").2 =
      [⟨.ambient, ⟨roleArnOf baid brn, "bridge_session", some beid⟩⟩,
       ⟨.triple bc.accessKeyId bc.secretAccessKey bc.sessionToken,
        ⟨roleArnOf account_id role_name, "cloudtrail_bot_session", none⟩⟩] ∧
    stsCallsOf (get_assumed_role_credential w account_id role_name (some "") "Role").2 =
      [⟨.ambient, ⟨roleArnOf baid brn, "bridge_session", some beid⟩⟩,
       ⟨.triple bc.accessKeyId bc.secretAccessKey bc.sessionToken,
        ⟨roleArnOf account_id role_name, "cloudtrail_bot_session", none⟩⟩] := by
  refine ⟨user_trace w account_id role_name ext ak sk hak hsk, ?_, ?_, ?_⟩
  · rw [role_trace w account_id role_name (some e) baid beid brn bc hba hbe hbr hok]
    simp [truthyOptStr, he]
  · rw [role_trace w account_id role_name none baid beid brn bc hba hbe hbr hok]
    simp [truthyOptStr]
  · rw [role_trace w account_id role_name (some "") baid beid brn bc hba hbe hbr hok]
    simp [truthyOptStr]

/-- Witness for C2 against the concrete world `wSts`. -/
theorem c2_external_id_discipline_witness :
    stsCallsOf (get_assumed_role_credential wSts "999988887777" "TargetRole" (some "x") "User").2 =
      [⟨.keyPair "AKIA" "SECR",
        ⟨roleArnOf "999988887777" "TargetRole", "cloudtrail_bot_session", none⟩⟩] ∧
    stsCallsOf (get_assumed_role_credential wSts "999988887777" "TargetRole" (some "ext-1") "Role").2 =
      [⟨.ambient, ⟨roleArnOf "222233334444" "BridgeRole", "bridge_session", some "br-ext"⟩⟩,
       ⟨.triple (Creds.mk "BAK" "BSK" "BTK").accessKeyId (Creds.mk "BAK" "BSK" "BTK").secretAccessKey
          (Creds.mk "BAK" "BSK" "BTK").sessionToken,
        ⟨roleArnOf "999988887777" "TargetRole", "cloudtrail_bot_session", some "ext-1"⟩⟩] ∧
    stsCallsOf (get_assumed_role_credential wSts "999988887777" "TargetRole" none "Role").2 =
      [⟨.ambient, ⟨roleArnOf "222233334444" "BridgeRole", "bridge_session", some "br-ext"⟩⟩,
       ⟨.triple (Creds.mk "BAK" "BSK" "BTK").accessKeyId (Creds.mk "BAK" "BSK" "BTK").secretAccessKey
          (Creds.mk "BAK" "BSK" "BTK").sessionToken,
        ⟨roleArnOf "999988887777" "TargetRole", "cloudtrail_bot_session", none⟩⟩] ∧
    stsCallsOf (get_assumed_role_credential wSts "999988887777" "TargetRole" (some "") "Role").2 =
      [⟨.ambient, ⟨roleArnOf "222233334444" "BridgeRole", "bridge_session", some "br-ext"⟩⟩,
       ⟨.triple (Creds.mk "BAK" "BSK" "BTK").accessKeyId (Creds.mk "BAK" "BSK" "BTK").secretAccessKey
          (Creds.mk "BAK" "BSK" "BTK").sessionToken,
        ⟨roleArnOf "999988887777" "TargetRole", "cloudtrail_bot_session", none⟩⟩] :=
  c2_external_id_discipline wSts "999988887777" "TargetRole" "ext-1" "AKIA" "SECR"
    "222233334444" "br-ext" "BridgeRole" (some "x") (Creds.mk "BAK" "BSK" "BTK")
    (by decide) (by decide) (by decide) (by decide) (by decide) (by decide) (by decide)

/-- C3: in the bridge path, the bridge assumption strictly precedes the
target assumption: if the bridge call fails, it is the only STS call ever
issued; if it succeeds with a credential triple, the target call is the
second and last call and is authenticated exactly by that triple. -/
theorem c3_bridge_ordering_and_auth (w1 w2 : World)
    (account_id role_name : String) (ext : Option String)
    (baid beid brn : String) (err : PyErr) (bc : Creds)
    (hba1 : w1.ssm CROSSACCOUNT_BRIDGE_ACCOUNDID = some baid)
    (hbe1 : w1.ssm CROSSACCOUNT_BRIDGE_EXTERNALID = some beid)
    (hbr1 : w1.ssm CROSSACCOUNT_BRIDGE_ROLENAME = some brn)
    (herr : w1.stsAssume .ambient
      ⟨roleArnOf baid brn, "bridge_session", some beid⟩ = .error err)
    (hba2 : w2.ssm CROSSACCOUNT_BRIDGE_ACCOUNDID = some baid)
    (hbe2 : w2.ssm CROSSACCOUNT_BRIDGE_EXTERNALID = some beid)
    (hbr2 : w2.ssm CROSSACCOUNT_BRIDGE_ROLENAME = some brn)
    (hok : w2.stsAssume .ambient
      ⟨roleArnOf baid brn, "bridge_session", some beid⟩ = .ok bc) :
    stsCallsOf (get_assumed_role_credential w1 account_id role_name ext "Role").2 =
      [⟨.ambient, ⟨roleArnOf baid brn, "bridge_session", some beid⟩⟩] ∧
    stsCallsOf (get_assumed_role_credential w2 account_id role_name ext "Role").2 =
      [⟨.ambient, ⟨roleArnOf baid brn, "bridge_session", some beid⟩⟩,
       ⟨.triple bc.accessKeyId bc.secretAccessKey bc.sessionToken,
        ⟨roleArnOf account_id role_name, "cloudtrail_bot_session",
         if truthyOptStr ext then ext else none⟩⟩] :=
  ⟨role_trace_bridge_denied w1 account_id role_name ext baid beid brn err hba1 hbe1 hbr1 herr,
   role_trace w2 account_id role_name ext baid beid brn bc hba2 hbe2 hbr2 hok⟩

/-- Witness for C3: the denying world `wStsErr` and the granting world
`wSts` at a concrete target. -/
theorem c3_bridge_ordering_and_auth_witness :
    stsCallsOf (get_assumed_role_credential wStsErr "999988887777" "TargetRole" (some "ext-1") "Role").2 =
      [⟨.ambient, ⟨roleArnOf "222233334444" "BridgeRole", "bridge_session", some "br-ext"⟩⟩] ∧
    stsCallsOf (get_assumed_role_credential wSts "999988887777" "TargetRole" (some "ext-1") "Role").2 =
      [⟨.ambient, ⟨roleArnOf "222233334444" "BridgeRole", "bridge_session", some "br-ext"⟩⟩,
       ⟨.triple (Creds.mk "BAK" "BSK" "BTK").accessKeyId (Creds.mk "BAK" "BSK" "BTK").secretAccessKey
          (Creds.mk "BAK" "BSK" "BTK").sessionToken,
        ⟨roleArnOf "999988887777" "TargetRole", "cloudtrail_bot_session",
         if truthyOptStr (some "ext-1") then some "ext-1" else none⟩⟩] :=
  c3_bridge_ordering_and_auth wStsErr wSts "999988887777" "TargetRole" (some "ext-1")
    "222233334444" "br-ext" "BridgeRole" (.stsError "AccessDenied") (Creds.mk "BAK" "BSK" "BTK")
    (by decide) (by decide) (by decide) (by decide) (by decide) (by decide) (by decide) (by decide)

lemma stsCallsOf_secret_title (w : World) (et : String) :
    stsCallsOf (get_db_secret_title w et).2 = [] := by
  unfold get_db_secret_title load_parameter_safe load_parameter
  dsimp only
  repeat' split
  all_goals rfl

lemma stsCallsOf_resolve_db_settings (w : World) (et : String) :
    stsCallsOf (resolve_db_settings w et).2 = [] := by
  unfold resolve_db_settings load_parameter_safe load_parameter
  dsimp only
  repeat' split
  all_goals rfl

lemma stsCallsOf_pool (w : World) (st : CredState) (et : String) :
    stsCallsOf (get_db_connection_pool w st et).2.2 = [] := by
  unfold get_db_connection_pool
  split
  · simp [stsCallsOf]
  · rcases hr : resolve_db_settings w et with ⟨r, tr⟩
    have htr := stsCallsOf_resolve_db_settings w et
    rw [hr] at htr
    dsimp only at htr
    cases r <;> simp [stsCallsOf, stsCallsOf_append, htr]

lemma stsCallsOf_account_info (w : World) (st : CredState) (aid et : String) :
    stsCallsOf (get_account_info_from_db w st aid et).2.2 = [] := by
  unfold get_account_info_from_db
  rcases hp : get_db_connection_pool w st et with ⟨r, st1, tr1⟩
  have htr := stsCallsOf_pool w st et
  rw [hp] at htr
  dsimp only at htr
  cases r with
  | error e => simpa [stsCallsOf] using htr
  | ok p =>
    dsimp only
    split
    · rcases ht : get_db_secret_title w et with ⟨rt, tr2⟩
      have ht2 := stsCallsOf_secret_title w et
      rw [ht] at ht2
      dsimp only at ht2
      cases rt with
      | error e => simp [stsCallsOf, stsCallsOf_append, htr, ht2]
      | ok title =>
        dsimp only
        cases hq : (queryRowsById w title aid).head? with
        | none => simp [stsCallsOf_append, htr, ht2]
        | some row =>
          cases hri : rowToInfo row with
          | error e => simp [hri, stsCallsOf, stsCallsOf_append, htr, ht2]
          | ok info => simp [hri, stsCallsOf, stsCallsOf_append, htr, ht2]
    · simp [stsCallsOf, stsCallsOf_append, htr]

/-- C7: when the directory lookup resolves an account id to no record, the
credential flow returns an absent result and issues no STS call at all. -/
theorem c7_absent_account_no_sts_call (w : World) (st : CredState)
    (account_id : String) (env_type : Option String)
    (habs : (get_account_info_from_db w st account_id (resolvedEnvType w env_type)).1 =
      .ok none) :
    (get_credential_by_account_id w st account_id env_type).1 = .ok none ∧
    stsCallsOf (get_credential_by_account_id w st account_id env_type).2.2 = [] := by
  unfold get_credential_by_account_id
  dsimp only
  rcases hl : get_account_info_from_db w st account_id (resolvedEnvType w env_type)
    with ⟨r, st1, tr1⟩
  rw [hl] at habs
  dsimp only at habs
  subst habs
  have htr := stsCallsOf_account_info w st account_id (resolvedEnvType w env_type)
  rw [hl] at htr
  dsimp only at htr
  exact ⟨rfl, by simp [stsCallsOf, stsCallsOf_append, htr]⟩

/-- Witness for C7: account `999999999999` is absent from `wOk`'s empty
directory; the flow answers `None` with no STS call. -/
theorem c7_absent_account_no_sts_call_witness :
    (get_credential_by_account_id wOk st0 "999999999999" none).1 = .ok none ∧
    stsCallsOf (get_credential_by_account_id wOk st0 "999999999999" none).2.2 = [] :=
  c7_absent_account_no_sts_call wOk st0 "999999999999" none (by decide)

/-- After the pool resolves, with a reachable database and a resolved secret
title, the lookup's result is determined by the fetched row alone. -/
lemma get_account_info_eval (w : World) (st : CredState) (aid et title : String)
    (hpool : isOkE (get_db_connection_pool w st et).1 = true)
    (hreach : w.dbReachable = true)
    (htitle : (get_db_secret_title w et).1 = .ok title) :
    (get_account_info_from_db w st aid et).1 =
      (match (queryRowsById w title aid).head? with
       | none => .ok none
       | some row =>
         match rowToInfo row with
         | .ok info => .ok (some info)
         | .error _ => .ok none) := by
  rcases hp : get_db_connection_pool w st et with ⟨r, st1, tr1⟩
  rw [hp] at hpool
  cases r with
  | error e => simp [isOkE] at hpool
  | ok p =>
    unfold get_account_info_from_db
    rw [hp]
    dsimp only
    split
    · rcases ht : get_db_secret_title w et with ⟨rt, tr2⟩
      rw [ht] at htitle
      dsimp only at htitle
      subst htitle
      dsimp only
      cases hq : (queryRowsById w title aid).head? with
      | none => simp
      | some row => cases hri : rowToInfo row <;> simp [hri]
    · exact absurd hreach (by assumption)

lemma mem_of_head_eq_some {α : Type} {l : List α} {a : α} (h : l.head? = some a) :
    a ∈ l := by
  cases l with
  | nil => cases h
  | cons x xs =>
    simp [List.head?] at h
    subst h
    exact List.mem_cons_self x xs

/-- Every row produced by the id query passed the `!= ''` filter on the
decrypted role-name column. -/
lemma mem_queryRowsById_sqlNeqEmpty (w : World) (title aid : String)
    (row : FetchedRow) (h : row ∈ queryRowsById w title aid) :
    sqlNeqEmpty row.cross_account_role_name = true := by
  unfold queryRowsById at h
  simp only [List.mem_flatMap, List.mem_map, List.mem_filter, Bool.and_eq_true] at h
  obtain ⟨c, hc, a, ha, heq⟩ := h
  rw [← heq]
  exact ha.2.1.2

lemma utf8DecodeList_cons_ne_nil (b : Nat) (rest : List Nat) (cs : List Char)
    (h : utf8DecodeList (b :: rest) = some cs) : cs ≠ [] := by
  unfold utf8DecodeList utf8DecodeListFuel at h
  rw [List.length_cons] at h
  dsimp only at h
  cases hs : utf8Step b rest with
  | none => rw [hs] at h; cases h
  | some v =>
    obtain ⟨c, r⟩ := v
    rw [hs] at h
    dsimp only at h
    rw [Option.map_eq_some'] at h
    obtain ⟨cs0, hcs0, rfl⟩ := h
    simp

/-- A successful strict UTF-8 decode of a non-empty byte string is a
non-empty string. -/
lemma utf8Decode_ne_empty (bs : List Nat) (s : String) (hne : bs ≠ [])
    (h : utf8Decode bs = some s) : s ≠ "" := by
  cases bs with
  | nil => exact absurd rfl hne
  | cons b rest =>
    unfold utf8Decode at h
    rw [Option.map_eq_some'] at h
    obtain ⟨cs, hcs, rfl⟩ := h
    have hnil := utf8DecodeList_cons_ne_nil b rest cs hcs
    intro hempty
    exact hnil (by simpa using congrArg String.data hempty)

/-- Removing every `'b'` yields the empty string only when the string held
nothing but `'b'` characters. -/
lemma stripB_eq_empty (s : String) (h : stripB s = "") :
    ∀ c ∈ s.data, c = 'b' := by
  have hd : s.data.filter (fun c => c != 'b') = [] := congrArg String.data h
  intro c hc
  have h2 := List.filter_eq_nil_iff.mp hd c hc
  simpa using h2

/-- C8: for a returned row whose decrypted role-name column arrives as a raw
byte string, the record's `role_name` is the UTF-8 decoding of those bytes
with every literal `'b'` character removed; a column value that is not a
byte string is returned unchanged. -/
theorem c8_role_name_normalization (w1 w2 : World) (st1 st2 : CredState)
    (aid1 aid2 et1 et2 title1 title2 : String) (row1 row2 : FetchedRow)
    (bs : List Nat) (s : String)
    (hpool1 : isOkE (get_db_connection_pool w1 st1 et1).1 = true)
    (hreach1 : w1.dbReachable = true)
    (htitle1 : (get_db_secret_title w1 et1).1 = .ok title1)
    (hrow1 : (queryRowsById w1 title1 aid1).head? = some row1)
    (hbytes : row1.cross_account_role_name = .bytes bs)
    (hdec : utf8Decode bs = some s)
    (hpool2 : isOkE (get_db_connection_pool w2 st2 et2).1 = true)
    (hreach2 : w2.dbReachable = true)
    (htitle2 : (get_db_secret_title w2 et2).1 = .ok title2)
    (hrow2 : (queryRowsById w2 title2 aid2).head? = some row2)
    (hnb : row2.cross_account_role_name.isBytes = false) :
    role_name_of w1 st1 aid1 et1 = some (.str (stripB s)) ∧
    role_name_of w2 st2 aid2 et2 = some row2.cross_account_role_name := by
  constructor
  · unfold role_name_of
    rw [get_account_info_eval w1 st1 aid1 et1 title1 hpool1 hreach1 htitle1, hrow1]
    dsimp only
    unfold rowToInfo normalize_role_name
    rw [hbytes]
    dsimp only
    rw [hdec]
  · unfold role_name_of
    rw [get_account_info_eval w2 st2 aid2 et2 title2 hpool2 hreach2 htitle2, hrow2]
    dsimp only
    unfold rowToInfo normalize_role_name
    cases hcr : row2.cross_account_role_name with
    | bytes bs2 => rw [hcr] at hnb; simp [SqlVal.isBytes] at hnb
    | null => rfl
    | int n => rfl
    | str s2 => rfl

/-- Witness for C8: `wC9` delivers the decrypted role name as the byte
string `b"bb"`, `wStrRow` as the character string `"CrossRole"`. -/
theorem c8_role_name_normalization_witness :
    role_name_of wC9 st0 "111122223333" "dev" = some (.str (stripB "bb")) ∧
    role_name_of wStrRow st0 "111122223333" "dev" =
      some (FetchedRow.cross_account_role_name
        { corp_id := .int 1, corp_name := .str "acme", account_id := .str "111122223333",
          cross_account_role_name := .str "CrossRole", assume_role_type := .str "Role",
          external_id := .null }) :=
  c8_role_name_normalization wC9 wStrRow st0 st0 "111122223333" "111122223333"
    "dev" "dev" "sekret" "sekret"
    { corp_id := .int 1, corp_name := .str "acme", account_id := .str "111122223333",
      cross_account_role_name := .bytes [98, 98], assume_role_type := .str "Role",
      external_id := .null }
    { corp_id := .int 1, corp_name := .str "acme", account_id := .str "111122223333",
      cross_account_role_name := .str "CrossRole", assume_role_type := .str "Role",
      external_id := .null }
    [98, 98] "bb"
    (by decide) (by decide) (by decide) (by decide) (by decide) (by decide)
    (by decide) (by decide) (by decide) (by decide) (by decide)

/-- C9 (counterexample): a non-empty decryption `b"bb"` passes the query's
`!= ''` filter, yet the returned record's `role_name` is the empty string —
the `'b'`-stripping normalization does not preserve non-emptiness. -/
theorem c9_counterexample :
    role_name_of wC9 st0 "111122223333" "dev" = some (.str "") := by decide

/-- C9 (amended): the queries do exclude rows whose decryption is empty,
and the returned `role_name` can be the empty string only in one case: the
decrypted column was a byte string whose non-empty UTF-8 decoding consists
entirely of `'b'` characters, all of which the historical normalization
strips away. -/
theorem c9_role_name_empty_only_for_all_b_bytes (w : World) (st : CredState)
    (aid et title : String) (row : FetchedRow)
    (hpool : isOkE (get_db_connection_pool w st et).1 = true)
    (hreach : w.dbReachable = true)
    (htitle : (get_db_secret_title w et).1 = .ok title)
    (hrow : (queryRowsById w title aid).head? = some row)
    (hempty : role_name_of w st aid et = some (.str "")) :
    ∃ bs s, row.cross_account_role_name = .bytes bs ∧ utf8Decode bs = some s ∧
      s ≠ "" ∧ ∀ c ∈ s.data, c = 'b' := by
  have hmem : row ∈ queryRowsById w title aid := mem_of_head_eq_some hrow
  have hfilter := mem_queryRowsById_sqlNeqEmpty w title aid row hmem
  unfold role_name_of at hempty
  rw [get_account_info_eval w st aid et title hpool hreach htitle, hrow] at hempty
  dsimp only at hempty
  cases hnorm : normalize_role_name row.cross_account_role_name with
  | error e =>
    unfold rowToInfo at hempty
    rw [hnorm] at hempty
    dsimp only at hempty
    cases hempty
  | ok rn =>
    unfold rowToInfo at hempty
    rw [hnorm] at hempty
    dsimp only at hempty
    have hrn : rn = .str "" := Option.some.inj hempty
    cases hcr : row.cross_account_role_name with
    | null =>
      rw [hcr] at hfilter
      simp [sqlNeqEmpty] at hfilter
    | int n =>
      rw [hcr] at hnorm
      unfold normalize_role_name at hnorm
      dsimp only at hnorm
      have h1 := Except.ok.inj hnorm
      rw [← h1] at hrn
      cases hrn
    | str s2 =>
      rw [hcr] at hnorm hfilter
      unfold normalize_role_name at hnorm
      dsimp only at hnorm
      have h1 := Except.ok.inj hnorm
      rw [← h1] at hrn
      have h2 := SqlVal.str.inj hrn
      rw [h2] at hfilter
      simp [sqlNeqEmpty] at hfilter
    | bytes bs =>
      rw [hcr] at hnorm hfilter
      unfold normalize_role_name at hnorm
      dsimp only at hnorm
      cases hdec : utf8Decode bs with
      | none =>
        rw [hdec] at hnorm
        cases hnorm
      | some s =>
        rw [hdec] at hnorm
        dsimp only at hnorm
        have h1 := Except.ok.inj hnorm
        rw [← h1] at hrn
        have h2 := SqlVal.str.inj hrn
        refine ⟨bs, s, rfl, hdec, ?_, stripB_eq_empty s h2⟩
        apply utf8Decode_ne_empty bs s ?_ hdec
        simp only [sqlNeqEmpty, Bool.not_eq_true'] at hfilter
        simpa using hfilter

/-- Witness for C9 (amended): in `wC9` the lookup returns an empty
`role_name`, and the fetched row's column is the all-`'b'` byte string. -/
theorem c9_role_name_empty_only_for_all_b_bytes_witness :
    ∃ bs s, FetchedRow.cross_account_role_name
        { corp_id := .int 1, corp_name := .str "acme", account_id := .str "111122223333",
          cross_account_role_name := .bytes [98, 98], assume_role_type := .str "Role",
          external_id := .null } = .bytes bs ∧
      utf8Decode bs = some s ∧ s ≠ "" ∧ ∀ c ∈ s.data, c = 'b' :=
  c9_role_name_empty_only_for_all_b_bytes wC9 st0 "111122223333" "dev" "sekret"
    { corp_id := .int 1, corp_name := .str "acme", account_id := .str "111122223333",
      cross_account_role_name := .bytes [98, 98], assume_role_type := .str "Role",
      external_id := .null }
    (by decide) (by decide) (by decide) (by decide) (by decide)
